import Mathlib

/-!
Verification of the subscription and scheduled-delivery model of the
tg-meditation bot, shallowly embedded from `src/main.py` (the
per-recipient-time variant: the scheduler ticks every minute and each
subscriber has an optional stored reminder time).

The module-level mutable state of `src/main.py` is
  subscribed_users    : set of chat ids          (a Python set of ints)
  user_reminder_times : chat id -> hour, minute  (a Python dict)
which we embed as the `Registry` structure below.  Command handlers and
the dispatcher `send_meditation_reminder` are embedded as pure state
transformers over `Registry`.
-/

namespace TgMeditation

/-- A wall-clock time of day: hour and minute, as Python integers. -/
structure Time where
  hour : Int
  minute : Int
deriving DecidableEq

/-- The module-level mutable state of `src/main.py`:
`subs` embeds the set `subscribed_users`; `times` embeds the dict
`user_reminder_times` (a stored entry `{"hour": h, "minute": m}` becomes
`some ⟨h, m⟩`, absence becomes `none`). -/
structure Registry where
  subs : Finset Int
  times : Int → Option Time

/-- The initial module state: `subscribed_users = set()` and
`user_reminder_times = {}` (`src/main.py` lines 31 and 34). -/
def initRegistry : Registry := ⟨∅, fun _ => none⟩

/-- The `/start` handler `start` (`src/main.py` line 58):
`subscribed_users.add(chat_id)`.  The reminder-times dict is untouched. -/
def subscribe (r : Int) (S : Registry) : Registry :=
  { S with subs := insert r S.subs }

/-- The `/stop` handler `stop` (`src/main.py` line 75):
`subscribed_users.discard(chat_id)`.  Python's `set.discard` raises no
error when the element is absent, so this is a total function.  Note the
handler does not touch `user_reminder_times`. -/
def unsubscribe (r : Int) (S : Registry) : Registry :=
  { S with subs := S.subs.erase r }

/-- Membership in `subscribed_users` (`chat_id in subscribed_users`). -/
def is_subscribed (r : Int) (S : Registry) : Bool :=
  decide (r ∈ S.subs)

/-- The default reminder time 8:55 used when a user has no stored custom
time (`src/main.py` lines 96-97: `target_hour = 8`, `target_minute = 55`). -/
def defaultTime : Time := ⟨8, 55⟩

/-- The target time the dispatcher computes for a user
(`src/main.py` lines 92-97): the stored entry of `user_reminder_times`
if present, else the default 8:55. -/
def effective_time (S : Registry) (r : Int) : Time :=
  match S.times r with
  | some t => t
  | none => defaultTime

/-- The two validation failures of the `/remind` handler
(`src/main.py` lines 150-155): hour outside 0..23, minute outside 0..59. -/
inductive InvalidTimeError where
  | hourOutOfRange
  | minuteOutOfRange
deriving DecidableEq

/-- The validation and store step of the `/remind` handler `set_reminder`
(`src/main.py` lines 149-158), after the argument has been parsed to
integers `hour` and `minute`:
if `hour < 0 or hour > 23` the handler replies an error and returns
without mutating; likewise for `minute < 0 or minute > 59`; otherwise it
stores `user_reminder_times[chat_id] = {"hour": hour, "minute": minute}`. -/
def set_time (r hour minute : Int) (S : Registry) : Except InvalidTimeError Registry :=
  if hour < 0 ∨ hour > 23 then .error .hourOutOfRange
  else if minute < 0 ∨ minute > 59 then .error .minuteOutOfRange
  else .ok { S with times := fun x => if x = r then some ⟨hour, minute⟩ else S.times x }

/-- The state after running the `/remind` handler: on a validation error
the handler returns early, so the state is unchanged. -/
def set_reminder_state (r hour minute : Int) (S : Registry) : Registry :=
  match set_time r hour minute S with
  | .ok S2 => S2
  | .error _ => S

/-- The `/defaultremind` handler `default_reminder` (`src/main.py`
lines 196-197): `if chat_id in user_reminder_times: del ...`.  Deleting a
missing key is guarded, so the handler raises no error when no override
exists; the mapping for `r` becomes absent either way. -/
def clear_time (r : Int) (S : Registry) : Registry :=
  { S with times := fun x => if x = r then none else S.times x }

/-- The dispatcher's eligibility test (`src/main.py` line 100):
`current_hour == target_hour and current_minute == target_minute`,
where the target is `effective_time S r`. -/
def eligibleB (now : Time) (S : Registry) (r : Int) : Bool :=
  decide (now.hour = (effective_time S r).hour) &&
    decide (now.minute = (effective_time S r).minute)

/-- The one exception the dispatcher loop can raise: CPython raises
RuntimeError when a set changes size while being iterated
(`setiter_iternext` compares the size recorded at iterator creation with
the current size on every step, including the exhausting one). -/
inductive PyError where
  | runtimeError
deriving DecidableEq

/-- Outcome of one dispatcher tick: the module state after the tick (all
mutations performed before an exception persist, since the state is
global), the chat ids to which a send was attempted, in order, and the
exception the tick raised, if any. -/
structure TickResult where
  state : Registry
  attempts : List Int
  error : Option PyError

/-- The body of the dispatcher loop `for chat_id in subscribed_users:`
(`src/main.py` lines 90-110), embedded with CPython set-iterator
semantics: `initCard` is the set's size recorded when the iterator was
created; every step of the iterator, including the final exhausting one,
first compares the current size with `initCard` and raises RuntimeError
on mismatch.  For each yielded `r`: if `r` is eligible a send is
attempted; a failed send (`ok r = false`) is caught, logged, and answered
by `subscribed_users.discard(chat_id)` — the eviction that then trips the
size check on the next iterator step. -/
def tickLoop (ok : Int → Bool) (now : Time) (initCard : Nat) :
    List Int → Registry → List Int → TickResult
  | [], S, acc =>
    if S.subs.card = initCard then ⟨S, acc.reverse, none⟩
    else ⟨S, acc.reverse, some .runtimeError⟩
  | r :: rest, S, acc =>
    if S.subs.card = initCard then
      if eligibleB now S r then
        if ok r then
          tickLoop ok now initCard rest S (r :: acc)
        else
          tickLoop ok now initCard rest { S with subs := S.subs.erase r } (r :: acc)
      else
        tickLoop ok now initCard rest S acc
    else ⟨S, acc.reverse, some .runtimeError⟩

/-- The two wall clocks visible to the process at a given instant:
what naive `datetime.now()` returns (the host's local time, no timezone
argument) and the current time in Europe/Berlin (the timezone the
scheduler's cron trigger is configured with). -/
structure Clock where
  hostLocalNow : Time
  berlinNow : Time

/-- The value the dispatcher compares against: `now = datetime.now()`
(`src/main.py` line 86) is naive, i.e. the host's local time. -/
def dispatcher_now (clock : Clock) : Time :=
  clock.hostLocalNow

/-- The timezone-qualified time the scheduler registration uses:
`CronTrigger(minute=..., timezone=berlin_tz)` (`src/main.py` line 231)
fires according to the Europe/Berlin clock. -/
def scheduler_now (clock : Clock) : Time :=
  clock.berlinNow

/-- One dispatcher tick `send_meditation_reminder` (`src/main.py`
lines 83-110).  `ok r` tells whether `bot.send_message` to chat `r`
succeeds; `order` is the (unspecified) iteration order of the Python set
`subscribed_users`, which theorems constrain to enumerate `S.subs`. -/
def send_meditation_reminder (clock : Clock) (ok : Int → Bool)
    (order : List Int) (S : Registry) : TickResult :=
  tickLoop ok (dispatcher_now clock) S.subs.card order S []

/-- `order` is a possible Python set-iteration order of `s`. -/
def enumerates (order : List Int) (s : Finset Int) : Prop :=
  order.Nodup ∧ ∀ x, x ∈ order ↔ x ∈ s

/-- The module states reachable from the initial state of `src/main.py`
by any sequence of the embedded handlers and dispatcher ticks. -/
inductive Reachable : Registry → Prop where
  | init : Reachable initRegistry
  | step_subscribe (r : Int) {S : Registry} : Reachable S → Reachable (subscribe r S)
  | step_unsubscribe (r : Int) {S : Registry} : Reachable S → Reachable (unsubscribe r S)
  | step_set_time (r hour minute : Int) {S : Registry} :
      Reachable S → Reachable (set_reminder_state r hour minute S)
  | step_clear_time (r : Int) {S : Registry} : Reachable S → Reachable (clear_time r S)
  | step_tick (clock : Clock) (ok : Int → Bool) (order : List Int) {S : Registry} :
      Reachable S → Reachable (send_meditation_reminder clock ok order S).state

/-- Every override stored in a state is within range: hour in 0..23 and
minute in 0..59. -/
def timesInRange (S : Registry) : Prop :=
  ∀ r hour minute, S.times r = some ⟨hour, minute⟩ →
    0 ≤ hour ∧ hour ≤ 23 ∧ 0 ≤ minute ∧ minute ≤ 59

/-- Example state: subscriber 7 with no stored time (effective 8:55). -/
def exReg1 : Registry := ⟨{7}, fun _ => none⟩

/-- Example state: subscribers 1 and 2, no stored times. -/
def exReg2 : Registry := ⟨{1, 2}, fun _ => none⟩

/-- Example state: subscriber 5 with stored time 9:20. -/
def exReg3 : Registry := ⟨{5}, fun x => if x = 5 then some ⟨9, 20⟩ else none⟩

/-- Example state: subscriber 3 with stored time 9:20. -/
def exReg6 : Registry := ⟨{3}, fun x => if x = 3 then some ⟨9, 20⟩ else none⟩

/-- A clock reading 8:55 both host-locally and in Berlin. -/
def exClock855 : Clock := ⟨⟨8, 55⟩, ⟨8, 55⟩⟩

/-- A clock on a host whose local zone is not Berlin: host-local 8:20
while Berlin reads 9:20 (a UTC host in winter). -/
def exClockUTC : Clock := ⟨⟨8, 20⟩, ⟨9, 20⟩⟩

/-- A delivery oracle where sending to chat 1 raises and every other
send succeeds. -/
def okExcept1 : Int → Bool := fun r => decide (r ≠ 1)

/-- A concrete reachable state: the result of the remind handler storing
9:20 for chat 5 starting from the initial state. -/
def exReach : Registry := set_reminder_state 5 9 20 initRegistry

end TgMeditation

namespace TgMeditation

/-! ## Helper lemmas about the dispatcher loop -/

/-- Once the size check fails the loop returns immediately, whatever
remains of the iteration, and the state is the one at that moment. -/
theorem tickLoop_frozen (ok : Int → Bool) (now : Time) (n : Nat)
    (l : List Int) (S : Registry) (acc : List Int) (h : S.subs.card ≠ n) :
    (tickLoop ok now n l S acc).state = S := by
  cases l <;> simp [tickLoop, h]

/-- A tick in which every eligible recipient's delivery succeeds performs
no mutation, attempts exactly the eligible recipients in iteration order,
and raises nothing. -/
theorem tickLoop_all_ok (ok : Int → Bool) (now : Time) (S : Registry) :
    ∀ (l acc : List Int),
      (∀ r ∈ l, eligibleB now S r = true → ok r = true) →
      tickLoop ok now S.subs.card l S acc =
        ⟨S, acc.reverse ++ l.filter (eligibleB now S), none⟩ := by
  intro l
  induction l with
  | nil => intro acc _; simp [tickLoop]
  | cons r rest ih =>
    intro acc h
    by_cases he : eligibleB now S r = true
    · have hok : ok r = true := h r (List.mem_cons_self r rest) he
      have hrec := ih (r :: acc) (fun x hx hex => h x (List.mem_cons_of_mem r hx) hex)
      simp [tickLoop, he, hok, hrec, List.filter_cons]
    · have hrec := ih acc (fun x hx hex => h x (List.mem_cons_of_mem r hx) hex)
      simp [tickLoop, he, hrec, List.filter_cons]

/-- The dispatcher loop never writes the reminder-times dict: whatever
happens, the final state carries the same `times` map. -/
theorem tickLoop_times (ok : Int → Bool) (now : Time) (n : Nat) :
    ∀ (l : List Int) (S : Registry) (acc : List Int),
      (tickLoop ok now n l S acc).state.times = S.times := by
  intro l
  induction l with
  | nil => intro S acc; by_cases h : S.subs.card = n <;> simp [tickLoop, h]
  | cons r rest ih =>
    intro S acc
    by_cases h : S.subs.card = n
    · by_cases he : eligibleB now S r = true
      · by_cases hok : ok r = true
        · simp [tickLoop, h, he, hok, ih]
        · simp [tickLoop, h, he, hok, ih]
      · simp [tickLoop, h, he, ih]
    · simp [tickLoop, h]

/-- When the only failing delivery in the iteration is the one to `C`,
the loop removes exactly `C` from the subscriber set: the failing send is
caught and answered by `discard`, and the loop then stops (the iterator's
size check fails) with every earlier recipient untouched. -/
theorem tickLoop_single_failure (ok : Int → Bool) (now : Time) (S : Registry) (C : Int)
    (helig : eligibleB now S C = true) (hfail : ok C = false) (hC : C ∈ S.subs) :
    ∀ (l acc : List Int), C ∈ l →
      (∀ x ∈ l, x ≠ C → eligibleB now S x = true → ok x = true) →
      (tickLoop ok now S.subs.card l S acc).state.subs = S.subs.erase C := by
  intro l
  induction l with
  | nil => intro acc hmem _; exact absurd hmem (List.not_mem_nil C)
  | cons x rest ih =>
    intro acc hmem h
    by_cases hx : x = C
    · subst hx
      have hcard : (S.subs.erase x).card ≠ S.subs.card := by
        have h1 := Finset.card_erase_of_mem hC
        have h2 : 0 < S.subs.card := Finset.card_pos.mpr ⟨x, hC⟩
        omega
      have hfrozen := tickLoop_frozen ok now S.subs.card rest
        { S with subs := S.subs.erase x } (x :: acc) hcard
      simp [tickLoop, helig, hfail, hfrozen]
    · have hmem2 : C ∈ rest := by
        rcases List.mem_cons.mp hmem with h1 | h1
        · exact absurd h1.symm hx
        · exact h1
      have h2 : ∀ y ∈ rest, y ≠ C → eligibleB now S y = true → ok y = true :=
        fun y hy => h y (List.mem_cons_of_mem x hy)
      by_cases he : eligibleB now S x = true
      · have hok : ok x = true := h x (List.mem_cons_self x rest) hx he
        simp [tickLoop, he, hok, ih (x :: acc) hmem2 h2]
      · simp [tickLoop, he, ih acc hmem2 h2]

/-! ## Claim theorems -/

/-- Claim C8: after `subscribe r` the recipient is subscribed and after
`unsubscribe r` it is not; both handlers are total functions (Python
`set.add` and `set.discard` raise no error, in particular `discard` on an
element that was never present). -/
theorem subscribe_unsubscribe_status (S : Registry) (r : Int) :
    is_subscribed r (subscribe r S) = true ∧
      is_subscribed r (unsubscribe r S) = false := by
  constructor
  · simp [is_subscribed, subscribe]
  · simp [is_subscribed, unsubscribe]

/-- Claim C9: subscribing twice in a row leaves the whole module state
(the subscriber set and the reminder-times dict) identical to subscribing
once: `set.add` is idempotent. -/
theorem subscribe_idempotent (S : Registry) (r : Int) :
    subscribe r (subscribe r S) = subscribe r S := by
  simp [subscribe, Finset.insert_idem]

/-- Claim C3, counterexample: unsubscribing chat 5, which holds the
stored time 9:20, removes the subscription but leaves the stored time in
place — the `stop` handler only touches `subscribed_users`, so the claim
that no time override for the recipient remains is false on the code. -/
theorem unsubscribe_leaves_override_cex :
    is_subscribed 5 (unsubscribe 5 exReg3) = false ∧
      (unsubscribe 5 exReg3).times 5 ≠ none := by
  decide

/-- Claim C3, amended: unsubscribing removes the subscription but leaves
the reminder-times dict — including any override for the unsubscribed
recipient — completely unchanged. -/
theorem unsubscribe_keeps_override (S : Registry) (r : Int) :
    is_subscribed r (unsubscribe r S) = false ∧
      (unsubscribe r S).times = S.times := by
  refine ⟨?_, rfl⟩
  simp [is_subscribed, unsubscribe]

/-- Claim C5: an out-of-range hour or minute makes `set_time` fail with
an `InvalidTimeError` and leave the state unchanged, while an in-range
pair replaces the recipient's stored time, leaving every other recipient
and the subscriber set untouched. -/
theorem set_time_validation (S : Registry) (r hour minute : Int) :
    ((hour < 0 ∨ hour > 23 ∨ minute < 0 ∨ minute > 59) →
      (∃ e, set_time r hour minute S = .error e) ∧
        set_reminder_state r hour minute S = S) ∧
    ((0 ≤ hour ∧ hour ≤ 23 ∧ 0 ≤ minute ∧ minute ≤ 59) →
      (set_reminder_state r hour minute S).times r = some ⟨hour, minute⟩ ∧
        (∀ x, x ≠ r → (set_reminder_state r hour minute S).times x = S.times x) ∧
        (set_reminder_state r hour minute S).subs = S.subs) := by
  constructor
  · intro h
    by_cases h1 : hour < 0 ∨ hour > 23
    · exact ⟨⟨.hourOutOfRange, by simp [set_time, h1]⟩,
        by simp [set_reminder_state, set_time, h1]⟩
    · have h2 : minute < 0 ∨ minute > 59 := by omega
      exact ⟨⟨.minuteOutOfRange, by simp [set_time, h1, h2]⟩,
        by simp [set_reminder_state, set_time, h1, h2]⟩
  · intro h
    have h1 : ¬(hour < 0 ∨ hour > 23) := by omega
    have h2 : ¬(minute < 0 ∨ minute > 59) := by omega
    refine ⟨by simp [set_reminder_state, set_time, h1, h2], ?_, ?_⟩
    · intro x hx
      simp [set_reminder_state, set_time, h1, h2, hx]
    · simp [set_reminder_state, set_time, h1, h2]

/-- Witness for C5: at hour 24 the handler fails and mutates nothing,
while the in-range pair 9:20 is stored for chat 5. -/
theorem set_time_validation_witness :
    ((∃ e, set_time 5 24 0 initRegistry = .error e) ∧
       set_reminder_state 5 24 0 initRegistry = initRegistry) ∧
    ((set_reminder_state 5 9 20 initRegistry).times 5 = some ⟨9, 20⟩ ∧
       (∀ x, x ≠ 5 → (set_reminder_state 5 9 20 initRegistry).times x =
          initRegistry.times x) ∧
       (set_reminder_state 5 9 20 initRegistry).subs = initRegistry.subs) :=
  ⟨(set_time_validation initRegistry 5 24 0).1 (by decide),
   (set_time_validation initRegistry 5 9 20).2 (by decide)⟩

/-- Claim C7: storing an in-range time makes it the recipient's effective
time, and clearing reverts the effective time to the default 8:55; the
clear handler is a total function (it guards the dict deletion, so it
raises no error even when no override existed). -/
theorem set_and_clear_time_effective (S : Registry) (r hour minute : Int)
    (hh : 0 ≤ hour ∧ hour ≤ 23) (hm : 0 ≤ minute ∧ minute ≤ 59) :
    (∃ S2, set_time r hour minute S = .ok S2 ∧
       effective_time S2 r = ⟨hour, minute⟩) ∧
      effective_time (clear_time r S) r = defaultTime := by
  have h1 : ¬(hour < 0 ∨ hour > 23) := by omega
  have h2 : ¬(minute < 0 ∨ minute > 59) := by omega
  constructor
  · have hs : set_time r hour minute S = .ok { S with times := fun x => if x = r then some ⟨hour, minute⟩ else S.times x } := by
      simp [set_time, h1, h2]
    exact ⟨_, hs, by simp [effective_time]⟩
  · simp [effective_time, clear_time]

/-- Witness for C7: storing 14:05 for chat 5 (replacing its stored 9:20)
makes 14:05 effective, and clearing reverts chat 5 to 8:55. -/
theorem set_and_clear_time_effective_witness :
    (∃ S2, set_time 5 14 5 exReg3 = .ok S2 ∧
       effective_time S2 5 = ⟨14, 5⟩) ∧
      effective_time (clear_time 5 exReg3) 5 = defaultTime :=
  set_and_clear_time_effective exReg3 5 14 5 (by decide) (by decide)

/-- Claim C1, counterexample: chat 7, subscribed and eligible at the
default 8:55, receives a delivery attempt that fails — and is no longer
subscribed after the tick, refuting the claim that under the
per-recipient-time variant a failure leaves the recipient subscribed.
The dispatcher of this variant runs `subscribed_users.discard(chat_id)`
in its exception handler. -/
theorem failure_evicts_cex :
    eligibleB (dispatcher_now exClock855) exReg1 7 = true ∧
      7 ∈ (send_meditation_reminder exClock855 (fun _ => false) [7] exReg1).attempts ∧
      is_subscribed 7
        (send_meditation_reminder exClock855 (fun _ => false) [7] exReg1).state = false := by
  decide

/-- Claim C1, amended: under the per-recipient-time variant a delivery
failure evicts the recipient.  If C is subscribed and eligible, delivery
to C fails, and every other recipient's delivery succeeds, then after the
tick the subscriber set is exactly the old one without C. -/
theorem failure_evicts (clock : Clock) (ok : Int → Bool) (order : List Int)
    (S : Registry) (C : Int) (hord : C ∈ order)
    (helig : eligibleB (dispatcher_now clock) S C = true)
    (hfail : ok C = false) (hC : C ∈ S.subs)
    (hothers : ∀ x ∈ order, x ≠ C →
      eligibleB (dispatcher_now clock) S x = true → ok x = true) :
    (send_meditation_reminder clock ok order S).state.subs = S.subs.erase C ∧
      is_subscribed C (send_meditation_reminder clock ok order S).state = false := by
  have h : (send_meditation_reminder clock ok order S).state.subs = S.subs.erase C :=
    tickLoop_single_failure ok (dispatcher_now clock) S C helig hfail hC order [] hord hothers
  refine ⟨h, ?_⟩
  simp [is_subscribed, h]

/-- Witness for the amended C1: the single subscriber 7 whose delivery
fails at 8:55 is gone from the subscriber set after the tick. -/
theorem failure_evicts_witness :
    (send_meditation_reminder exClock855 (fun _ => false) [7] exReg1).state.subs =
        exReg1.subs.erase 7 ∧
      is_subscribed 7
        (send_meditation_reminder exClock855 (fun _ => false) [7] exReg1).state = false :=
  failure_evicts exClock855 (fun _ => false) [7] exReg1 7 (by decide) (by decide) rfl
    (by decide)
    (by intro x hx hne _; exact absurd (List.mem_singleton.mp hx) hne)

/-- Claim C2 (code bug), evaluated at the failing input: subscribers 1
and 2, both eligible at the default 8:55, delivery to 1 raises.  The
exception handler discards 1 from the set being iterated, so CPython
raises RuntimeError on the next iterator step: the tick aborts with an
error and the eligible subscriber 2 never gets its delivery attempt —
against both the spec and the code's own intent of continuing after a
logged per-recipient failure. -/
theorem delivery_failure_aborts_batch :
    (2 : Int) ∈ exReg2.subs ∧
      eligibleB (dispatcher_now exClock855) exReg2 2 = true ∧
      (send_meditation_reminder exClock855 okExcept1 [1, 2] exReg2).attempts = [1] ∧
      (send_meditation_reminder exClock855 okExcept1 [1, 2] exReg2).error =
        some .runtimeError := by
  decide

/-- Claim C4, counterexample: subscriber 2 is eligible at 8:55, yet in a
tick where the delivery to subscriber 1 fails earlier in the iteration, 2
receives no delivery attempt — the claim's iff fails in the direction
eligible-implies-attempted. -/
theorem eligibility_iff_attempt_cex :
    (2 : Int) ∈ exReg2.subs ∧
      eligibleB (dispatcher_now exClock855) exReg2 2 = true ∧
      2 ∉ (send_meditation_reminder exClock855 okExcept1 [1, 2] exReg2).attempts := by
  decide

/-- Claim C4, amended: in a tick where no eligible recipient's delivery
fails, a subscribed recipient receives a delivery attempt iff its
effective time equals the tick's current hour and minute, and the
dispatcher raises nothing. -/
theorem eligibility_iff_attempt (clock : Clock) (ok : Int → Bool) (order : List Int)
    (S : Registry) (r : Int)
    (hmem : ∀ x, x ∈ order ↔ x ∈ S.subs)
    (hnofail : ∀ x ∈ order, eligibleB (dispatcher_now clock) S x = true → ok x = true)
    (hr : r ∈ S.subs) :
    ((r ∈ (send_meditation_reminder clock ok order S).attempts) ↔
        eligibleB (dispatcher_now clock) S r = true) ∧
      (send_meditation_reminder clock ok order S).error = none := by
  have h := tickLoop_all_ok ok (dispatcher_now clock) S order [] hnofail
  have h2 : send_meditation_reminder clock ok order S =
      ⟨S, order.filter (eligibleB (dispatcher_now clock) S), none⟩ := by
    simpa [send_meditation_reminder] using h
  rw [h2]
  exact ⟨by simp [List.mem_filter, (hmem r).mpr hr], rfl⟩

/-- Witness for the amended C4: with subscribers 1 and 2 at default times
and every delivery succeeding, subscriber 2 is attempted iff eligible and
the tick ends without error. -/
theorem eligibility_iff_attempt_witness :
    ((2 : Int) ∈ (send_meditation_reminder exClock855 (fun _ => true) [1, 2] exReg2).attempts ↔
        eligibleB (dispatcher_now exClock855) exReg2 2 = true) ∧
      (send_meditation_reminder exClock855 (fun _ => true) [1, 2] exReg2).error = none :=
  eligibility_iff_attempt exClock855 (fun _ => true) [1, 2] exReg2 2
    (by intro x; simp [exReg2]) (fun x _ _ => rfl) (by decide)

/-- Claim C6, counterexample: on a host whose local zone is not Berlin
(host-local 8:20 while Berlin reads 9:20) the dispatcher's `now` differs
from Berlin time, and subscriber 3, whose stored time 9:20 equals the
current Berlin time, receives no delivery attempt: the comparison is the
naive `datetime.now()`, not the configured timezone of the scheduler
trigger. -/
theorem timezone_mismatch_cex :
    dispatcher_now exClockUTC ≠ scheduler_now exClockUTC ∧
      eligibleB (scheduler_now exClockUTC) exReg6 3 = true ∧
      (send_meditation_reminder exClockUTC (fun _ => true) [3] exReg6).attempts = [] := by
  decide

/-- Claim C6, amended: the dispatcher's wall-clock comparison uses the
ambient host-local clock and is independent of Berlin time: two clocks
that agree host-locally produce identical ticks even when their Berlin
readings differ; the comparison agrees with the scheduler's configured
timezone only when the host's local zone is Berlin. -/
theorem tick_depends_only_on_host_clock (c1 c2 : Clock) (ok : Int → Bool)
    (order : List Int) (S : Registry) (h : c1.hostLocalNow = c2.hostLocalNow) :
    send_meditation_reminder c1 ok order S = send_meditation_reminder c2 ok order S := by
  simp [send_meditation_reminder, dispatcher_now, h]

/-- Witness for the amended C6: two clocks agreeing host-locally but with
Berlin readings 9:20 versus 23:59 produce the same tick. -/
theorem tick_depends_only_on_host_clock_witness :
    send_meditation_reminder ⟨⟨8, 20⟩, ⟨9, 20⟩⟩ (fun _ => true) [3] exReg6 =
      send_meditation_reminder ⟨⟨8, 20⟩, ⟨23, 59⟩⟩ (fun _ => true) [3] exReg6 :=
  tick_depends_only_on_host_clock _ _ _ _ _ rfl

/-- Claim C10: every reachable module state stores only in-range
overrides — the remind handler stores a time only after both bounds
checks pass, and no other operation writes the reminder-times dict. -/
theorem reachable_times_in_range (S : Registry) (h : Reachable S) :
    timesInRange S := by
  induction h with
  | init => intro x a b hx; simp [initRegistry] at hx
  | step_subscribe r hS ih => exact ih
  | step_unsubscribe r hS ih => exact ih
  | step_set_time r hour minute hS ih =>
    intro x a b hx
    by_cases h1 : hour < 0 ∨ hour > 23
    · exact ih x a b (by simpa [set_reminder_state, set_time, h1] using hx)
    · by_cases h2 : minute < 0 ∨ minute > 59
      · exact ih x a b (by simpa [set_reminder_state, set_time, h1, h2] using hx)
      · by_cases hxr : x = r
        · have heq : hour = a ∧ minute = b := by
            have := hx
            simp [set_reminder_state, set_time, h1, h2, hxr, Time.mk.injEq] at this
            exact this
          omega
        · exact ih x a b (by simpa [set_reminder_state, set_time, h1, h2, hxr] using hx)
  | step_clear_time r hS ih =>
    intro x a b hx
    by_cases hxr : x = r
    · simp [clear_time, hxr] at hx
    · exact ih x a b (by simpa [clear_time, hxr] using hx)
  | step_tick clock ok order hS ih =>
    intro x a b hx
    exact ih x a b (by simpa [send_meditation_reminder, tickLoop_times] using hx)

/-- Witness for C10: the state reached by storing 9:20 for chat 5 from
the initial state is reachable, and the bounds hold for that override. -/
theorem reachable_times_in_range_witness :
    Reachable exReach ∧
      ((0 : Int) ≤ 9 ∧ (9 : Int) ≤ 23 ∧ (0 : Int) ≤ 20 ∧ (20 : Int) ≤ 59) := by
  have hreach : Reachable exReach := Reachable.step_set_time 5 9 20 Reachable.init
  exact ⟨hreach, reachable_times_in_range exReach hreach 5 9 20 (by decide)⟩

end TgMeditation
